import Mathlib

/-!
Verification of the Cosmos camera/orbital core.

The definitions below are a shallow embedding of the TypeScript sources
`src/core/SDK.ts`, `cosmos-app/src/core/InputHandler.ts` and
`cosmos-app/src/App.tsx` of the `qtremors/cosmos` repository.

Numeric conventions: JavaScript floating-point scalars are modelled as
exact reals (`ℝ`) where trigonometry or `Math.PI`/`Math.sqrt` are involved,
and as exact rationals (`ℚ`) for device inputs (gamepad axes, mouse pixel
deltas, zoom velocity, frame delta) and distances, whose source operations
are pure field arithmetic and comparisons.  Where a rational quantity flows
into real-valued geometry it is coerced.
-/

namespace Cosmos

/-- `Cosmos.CONTROLS.ORBIT_SPEED_SCALE` (SDK.ts line 235): the unified
orbit speed multiplier, `0.2`. -/
noncomputable def ORBIT_SPEED_SCALE : ℝ := 0.2

/-- `Cosmos.CAMERA.LOCK_DISTANCE_MULTIPLIER` (SDK.ts line 276): `3.0`. -/
def LOCK_DISTANCE_MULTIPLIER : ℚ := 3

/-- `Cosmos.CAMERA.LERP_FACTOR` (SDK.ts line 278): `0.1`. -/
noncomputable def LERP_FACTOR : ℝ := 0.1

/-- `Cosmos.RADAR.RANGE` (SDK.ts line 243): `2000`. -/
noncomputable def RADAR_RANGE : ℝ := 2000

/-- `Cosmos.RADAR.RADIUS` (SDK.ts line 244): `100`. -/
noncomputable def RADAR_RADIUS : ℝ := 100

/-- `Cosmos.getOrbitalPosition` (SDK.ts lines 349-360):
`theta = initialAngle + time * speed * ORBIT_SPEED_SCALE`, returning
`(Math.cos(theta) * distance, Math.sin(theta) * distance)`. -/
noncomputable def getOrbitalPosition (initialAngle time speed distance : ℝ) :
    ℝ × ℝ :=
  let theta := initialAngle + time * speed * ORBIT_SPEED_SCALE
  (Real.cos theta * distance, Real.sin theta * distance)

end Cosmos

/-!
Vectors, quaternions and the camera transform, following the three.js
primitives the source calls (`Vector3`, `Quaternion`, `Object3D`).
-/

/-- A three.js `Vector3` with exact real components. -/
structure Vec3 where
  x : ℝ
  y : ℝ
  z : ℝ

namespace Vec3

/-- `Vector3.add`. -/
def add (a b : Vec3) : Vec3 := ⟨a.x + b.x, a.y + b.y, a.z + b.z⟩

/-- `Vector3.sub`. -/
def sub (a b : Vec3) : Vec3 := ⟨a.x - b.x, a.y - b.y, a.z - b.z⟩

/-- `Vector3.multiplyScalar`. -/
def multiplyScalar (a : Vec3) (s : ℝ) : Vec3 := ⟨a.x * s, a.y * s, a.z * s⟩

end Vec3

/-- A three.js `Quaternion` with exact real components. -/
structure Quat where
  x : ℝ
  y : ℝ
  z : ℝ
  w : ℝ

namespace Quat

/-- `Quaternion.multiplyQuaternions(a, b)` (a * b, in that order). -/
def mul (a b : Quat) : Quat :=
  ⟨a.x * b.w + a.w * b.x + a.y * b.z - a.z * b.y,
   a.y * b.w + a.w * b.y + a.z * b.x - a.x * b.z,
   a.z * b.w + a.w * b.z + a.x * b.y - a.y * b.x,
   a.w * b.w - a.x * b.x - a.y * b.y - a.z * b.z⟩

/-- `Quaternion.setFromAxisAngle(axis, angle)` for a unit axis:
vector part `axis * sin(angle/2)`, scalar part `cos(angle/2)`. -/
noncomputable def setFromAxisAngle (axis : Vec3) (angle : ℝ) : Quat :=
  ⟨axis.x * Real.sin (angle / 2), axis.y * Real.sin (angle / 2),
   axis.z * Real.sin (angle / 2), Real.cos (angle / 2)⟩

/-- `Quaternion.invert` (the conjugate; three.js assumes a unit quaternion). -/
def conjugate (q : Quat) : Quat := ⟨-q.x, -q.y, -q.z, q.w⟩

end Quat

namespace Vec3

/-- `Vector3.applyQuaternion(q)`: with `t = 2 * cross(q.xyz, v)` the result
is `v + q.w * t + cross(q.xyz, t)`, exactly as written in three.js. -/
def applyQuaternion (v : Vec3) (q : Quat) : Vec3 :=
  let tx := 2 * (q.y * v.z - q.z * v.y)
  let ty := 2 * (q.z * v.x - q.x * v.z)
  let tz := 2 * (q.x * v.y - q.y * v.x)
  ⟨v.x + q.w * tx + q.y * tz - q.z * ty,
   v.y + q.w * ty + q.z * tx - q.x * tz,
   v.z + q.w * tz + q.x * ty - q.y * tx⟩

end Vec3

/-- The camera pose: world position plus orientation quaternion
(`THREE.PerspectiveCamera` as used by `applyInputToCamera`; the `up` vector
and projection parameters play no role in the claims). -/
structure Camera where
  pos : Vec3
  quat : Quat

namespace Camera

/-- `Object3D.rotateOnAxis(axis, angle)`:
`quaternion.multiply(setFromAxisAngle(axis, angle))`. -/
noncomputable def rotateOnAxis (cam : Camera) (axis : Vec3) (angle : ℝ) :
    Camera :=
  { cam with quat := cam.quat.mul (Quat.setFromAxisAngle axis angle) }

/-- `Object3D.rotateX(angle)`. -/
noncomputable def rotateX (cam : Camera) (angle : ℝ) : Camera :=
  cam.rotateOnAxis ⟨1, 0, 0⟩ angle

/-- `Object3D.rotateY(angle)`. -/
noncomputable def rotateY (cam : Camera) (angle : ℝ) : Camera :=
  cam.rotateOnAxis ⟨0, 1, 0⟩ angle

/-- `Object3D.translateZ(d)` = `translateOnAxis((0,0,1), d)`:
`position += (0,0,1).applyQuaternion(quaternion) * d`. -/
def translateZ (cam : Camera) (d : ℝ) : Camera :=
  { cam with
    pos := cam.pos.add (((Vec3.mk 0 0 1).applyQuaternion cam.quat).multiplyScalar d) }

end Camera

/-!
Input aggregation (`cosmos-app/src/core/InputHandler.ts`).
-/

/-- `InputState` (InputHandler.ts lines 8-22). -/
structure InputState where
  forward : Bool
  back : Bool
  left : Bool
  right : Bool
  up : Bool
  down : Bool
  rollLeft : Bool
  rollRight : Bool
  boost : Bool
  pitchUp : Bool
  pitchDown : Bool
  yawLeft : Bool
  yawRight : Bool
deriving DecidableEq

/-- `createInputState` (InputHandler.ts lines 36-42): every flag false. -/
def createInputState : InputState :=
  ⟨false, false, false, false, false, false, false,
   false, false, false, false, false, false⟩

/-- `updateInputKey` (InputHandler.ts lines 44-61).  The source mutates
`state` in place; the model returns the updated record.  Any key code not
listed falls through the `switch` and leaves the state unchanged. -/
def updateInputKey (state : InputState) (code : String) (pressed : Bool) :
    InputState :=
  if code = "KeyW" then { state with forward := pressed }
  else if code = "KeyS" then { state with back := pressed }
  else if code = "KeyA" then { state with left := pressed }
  else if code = "KeyD" then { state with right := pressed }
  else if code = "ArrowUp" then { state with pitchUp := pressed }
  else if code = "ArrowDown" then { state with pitchDown := pressed }
  else if code = "ArrowLeft" then { state with yawLeft := pressed }
  else if code = "ArrowRight" then { state with yawRight := pressed }
  else if code = "KeyR" then { state with up := pressed }
  else if code = "KeyF" then { state with down := pressed }
  else if code = "KeyQ" then { state with rollLeft := pressed }
  else if code = "KeyE" then { state with rollRight := pressed }
  else if code = "ShiftLeft" then { state with boost := pressed }
  else if code = "ShiftRight" then { state with boost := pressed }
  else state

/-- One entry of `gamepad.buttons`. -/
structure GamepadButton where
  pressed : Bool
  value : ℚ
deriving DecidableEq

/-- The slice of the Web Gamepad API state read by `applyInputToCamera`:
axes 0-3 and the button array (accessed with `buttons[i]?.`). -/
structure Gamepad where
  ax0 : ℚ
  ax1 : ℚ
  ax2 : ℚ
  ax3 : ℚ
  buttons : List GamepadButton
deriving DecidableEq

/-- `gamepad.buttons[i]?.pressed` — `false` when the button is absent. -/
def buttonPressed (gp : Gamepad) (i : Nat) : Bool :=
  ((gp.buttons.get? i).map GamepadButton.pressed).getD false

/-- `DEADZONE` (InputHandler.ts line 81): `0.15`. -/
def DEADZONE : ℚ := 3 / 20

/-- `SENSITIVITY` (InputHandler.ts line 82): `0.002`. -/
def SENSITIVITY : ℚ := 1 / 500

/-- The `isMoving` value of `applyInputToCamera`
(InputHandler.ts lines 84-89, 111-123 and 138): keyboard translational
flags OR-merged with gamepad left-stick deadzone tests and buttons 0/1. -/
def computeIsMoving (input : InputState) (g : Option Gamepad) : Bool :=
  match g with
  | none =>
      input.forward || input.back || input.left || input.right ||
        input.up || input.down
  | some gp =>
      let moveFwd := input.forward || decide (gp.ax1 < -DEADZONE)
      let moveBack := input.back || decide (gp.ax1 > DEADZONE)
      let moveLeft := input.left || decide (gp.ax0 < -DEADZONE)
      let moveRight := input.right || decide (gp.ax0 > DEADZONE)
      let moveUp := input.up || buttonPressed gp 0
      let moveDown := input.down || buttonPressed gp 1
      moveFwd || moveBack || moveLeft || moveRight || moveUp || moveDown

/-!
The lock-on state and the locked-mode orbital update.
-/

/-- The lock target's mesh.  `Cosmos.getObjectRadius` (SDK.ts lines
369-395) resolves the object's radius through its geometry, first child or
custom property; all paths return the body's radius, modelled as the single
field below.  The mesh's world position feeds only the camera pose (lerp
and look-at), which no claim depends on, so it is not modelled. -/
structure Mesh where
  radius : ℚ
deriving DecidableEq

/-- `LockTarget` (InputHandler.ts lines 24-30).  `mesh` is declared
non-nullable (`THREE.Object3D`) in TypeScript, but the locked branch
guards on its truthiness (`else if (lockTarget.mesh)`), so the model makes
the possible runtime invalidity explicit with `Option`. -/
structure LockTarget where
  mesh : Option Mesh
  distance : ℚ
  isTop : Bool
  theta : ℝ
  phi : ℝ

/-- The per-frame inputs consumed by one `applyInputToCamera` call:
frame delta, the zoom-velocity accumulator at entry, the locked-mode mouse
orbit deltas `orbitX`/`orbitY` (equal to `mouseDelta * SENSITIVITY`, from
lines 101-104), the keyboard state and the polled gamepad. -/
structure FrameInput where
  delta : ℚ
  zoomVel : ℚ
  orbitX : ℚ
  orbitY : ℚ
  input : InputState
  gamepad : Option Gamepad

/-- Locked-mode mouse orbit (InputHandler.ts lines 184-186):
`theta -= orbitX * 2.0` and
`phi = max(-π/2 + 0.1, min(π/2 - 0.1, phi + orbitY * 2.0))`. -/
noncomputable def applyMouseOrbit (orbit : ℚ × ℚ) (theta phi : ℝ) : ℝ × ℝ :=
  (theta - (orbit.1 : ℝ) * 2,
   max (-(Real.pi / 2) + 0.1)
     (min (Real.pi / 2 - 0.1) (phi + (orbit.2 : ℝ) * 2)))

/-- Locked-mode gamepad right-stick orbit (InputHandler.ts lines 188-196):
deadzone-filtered `theta -= ax2 * 2.0 * delta` and clamped
`phi += ax3 * 2.0 * delta`. -/
noncomputable def applyGamepadOrbit (g : Option Gamepad) (delta : ℚ)
    (theta phi : ℝ) : ℝ × ℝ :=
  match g with
  | none => (theta, phi)
  | some gp =>
      (if |gp.ax2| > DEADZONE then theta - (gp.ax2 : ℝ) * 2 * (delta : ℝ)
       else theta,
       if |gp.ax3| > DEADZONE then
         max (-(Real.pi / 2) + 0.1)
           (min (Real.pi / 2 - 0.1) (phi + (gp.ax3 : ℝ) * 2 * (delta : ℝ)))
       else phi)

/-- The locked-mode state mutations of `applyInputToCamera`
(InputHandler.ts lines 167-196), in source order: zoom applied to the
orbit distance and damped (lines 171-172), distance clamped to
`getObjectRadius(mesh) * 1.5` (lines 174-175), keyboard yaw/pitch at
`orbitSpeed = 2.0 * delta` with one-sided pitch clamps (lines 178-182),
mouse orbit (lines 185-186), gamepad right stick (lines 189-196).
Returns the updated lock target and the damped zoom velocity.  The
subsequent camera pose update (lines 198-218) reads but never writes the
lock target, so it is outside this function. -/
noncomputable def applyLockedOrbit (fi : FrameInput) (m : Mesh)
    (s : LockTarget) : LockTarget × ℚ :=
  let distance1 := s.distance + fi.zoomVel * fi.delta * 50
  let zoomVel1 := fi.zoomVel * (9 / 10)
  let minD := m.radius * (3 / 2)
  let distance2 := max minD distance1
  let orbitSpeed : ℝ := 2 * (fi.delta : ℝ)
  let theta1 := if fi.input.yawLeft then s.theta + orbitSpeed else s.theta
  let theta2 := if fi.input.yawRight then theta1 - orbitSpeed else theta1
  let phi1 :=
    if fi.input.pitchUp then min (Real.pi / 2 - 0.1) (s.phi + orbitSpeed)
    else s.phi
  let phi2 :=
    if fi.input.pitchDown then max (-(Real.pi / 2) + 0.1) (phi1 - orbitSpeed)
    else phi1
  let tp3 := applyMouseOrbit (fi.orbitX, fi.orbitY) theta2 phi2
  let tp4 := applyGamepadOrbit fi.gamepad fi.delta tp3.1 tp3.2
  (⟨s.mesh, distance2, s.isTop, tp4.1, tp4.2⟩, zoomVel1)

/-- The lock-state evolution of one frame: `applyInputToCamera` runs the
locked branch only when the lock is non-null and its mesh is valid
(InputHandler.ts lines 141 and 165) and never nulls the lock itself; the
frame loop then auto-unlocks when `isMoving` is true
(App.tsx lines 333-336: `if (isMoving && lockRef.current) unlockCamera()`). -/
noncomputable def frameLockUpdate (fi : FrameInput)
    (lock : Option LockTarget) : Option LockTarget :=
  let isMoving := computeIsMoving fi.input fi.gamepad
  let lock1 : Option LockTarget :=
    match lock with
    | none => none
    | some s =>
        match s.mesh with
        | none => some s
        | some m => some (applyLockedOrbit fi m s).1
  if isMoving && lock1.isSome then none else lock1

/-!
Free-flight mouse look and zoom inertia.
-/

/-- The mouse-delta consumption block of `applyInputToCamera`
(InputHandler.ts lines 94-108).  When the accumulator is nonzero it is
applied — as camera yaw/pitch rotation in free flight, or stored as
`orbitX`/`orbitY` when locked — and then reset to `(0, 0)`.
Returns the camera, the `(orbitX, orbitY)` pair and the drained
accumulator. -/
noncomputable def mouseLookStep (cam : Camera) (locked : Bool)
    (md : ℚ × ℚ) : Camera × (ℚ × ℚ) × (ℚ × ℚ) :=
  if md.1 ≠ 0 ∨ md.2 ≠ 0 then
    if locked then (cam, (md.1 * SENSITIVITY, md.2 * SENSITIVITY), (0, 0))
    else
      ((cam.rotateY (-(md.1 : ℝ) * (SENSITIVITY : ℝ))).rotateX
          (-(md.2 : ℝ) * (SENSITIVITY : ℝ)),
        (0, 0), (0, 0))
  else (cam, (0, 0), md)

/-- The free-flight zoom integration of `applyInputToCamera`
(InputHandler.ts lines 161-164): when `|zoomVelocity| > 0.01` the camera
runs `translateZ(zoomVelocity * delta * 10.0)` and the velocity is damped
by `0.9`. -/
noncomputable def freeZoomStep (cam : Camera) (zoomVel delta : ℚ) :
    Camera × ℚ :=
  if |zoomVel| > 1 / 100 then
    (cam.translateZ ((zoomVel : ℝ) * (delta : ℝ) * 10), zoomVel * (9 / 10))
  else (cam, zoomVel)

/-- `lockOnTarget` (App.tsx lines 68-77): the created lock state, with
orbit distance `radius * LOCK_DISTANCE_MULTIPLIER`, `isTop = false`,
`theta = π/4` and `phi = 0.3`. -/
noncomputable def lockOnTarget (m : Mesh) (radius : ℚ) : LockTarget :=
  ⟨some m, radius * Cosmos.LOCK_DISTANCE_MULTIPLIER, false, Real.pi / 4, 0.3⟩

/-!
The radar projection (App.tsx lines 386-417).
-/

/-- A radar blip: offset from the radar centre plus the clamped flag. -/
structure RadarPoint where
  x : ℝ
  y : ℝ
  clamped : Bool

/-- The unclamped radar projection (App.tsx lines 389 and 394-401):
the entity's world position relative to the camera, rotated by the inverse
(conjugate) camera quaternion into camera-local space; the local `(x, z)`
pair is scaled by `RADIUS / RANGE`. -/
noncomputable def radarScaled (camPos : Vec3) (camQuat : Quat)
    (entityPos : Vec3) : ℝ × ℝ :=
  let vec := (entityPos.sub camPos).applyQuaternion camQuat.conjugate
  (vec.x / Cosmos.RADAR_RANGE * Cosmos.RADAR_RADIUS,
   vec.z / Cosmos.RADAR_RANGE * Cosmos.RADAR_RADIUS)

/-- The radar point with edge clamping (App.tsx lines 402-409): when the
scaled point's magnitude `d = sqrt(x² + y²)` exceeds `RADIUS - 10` it is
rescaled by `(RADIUS - 10) / d` and flagged as clamped. -/
noncomputable def radarProject (camPos : Vec3) (camQuat : Quat)
    (entityPos : Vec3) : RadarPoint :=
  let p := radarScaled camPos camQuat entityPos
  let d := Real.sqrt (p.1 * p.1 + p.2 * p.2)
  if d > Cosmos.RADAR_RADIUS - 10 then
    ⟨p.1 * ((Cosmos.RADAR_RADIUS - 10) / d),
     p.2 * ((Cosmos.RADAR_RADIUS - 10) / d), true⟩
  else ⟨p.1, p.2, false⟩

/-- Claim C1: `getOrbitalPosition` returns `(x, z)` with
`x = r·cos(θ)`, `z = r·sin(θ)` for `θ = phase + time·speed·0.2`
(the global orbit speed scale); hence the point lies exactly on the circle
of radius `r` (`x² + z² = r²`), and phase = 0, time = 0, radius = 60
yields the position `(60, 0)`. -/
theorem c1_orbital_position_on_circle :
    ∀ p t s r : ℝ,
      (Cosmos.getOrbitalPosition p t s r).1 =
          r * Real.cos (p + t * s * Cosmos.ORBIT_SPEED_SCALE) ∧
      (Cosmos.getOrbitalPosition p t s r).2 =
          r * Real.sin (p + t * s * Cosmos.ORBIT_SPEED_SCALE) ∧
      (Cosmos.getOrbitalPosition p t s r).1 ^ 2 +
          (Cosmos.getOrbitalPosition p t s r).2 ^ 2 = r ^ 2 ∧
      Cosmos.getOrbitalPosition 0 0 s 60 = (60, 0) := by
  intro p t s r
  refine ⟨mul_comm _ _, mul_comm _ _, ?_, ?_⟩
  · show (Real.cos _ * r) ^ 2 + (Real.sin _ * r) ^ 2 = r ^ 2
    linear_combination
      r ^ 2 * Real.sin_sq_add_cos_sq (p + t * s * Cosmos.ORBIT_SPEED_SCALE)
  · show (Real.cos (0 + 0 * s * Cosmos.ORBIT_SPEED_SCALE) * 60,
        Real.sin (0 + 0 * s * Cosmos.ORBIT_SPEED_SCALE) * 60) = ((60 : ℝ), (0 : ℝ))
    norm_num

/-!
Helper lemmas for the locked-mode invariants.
-/

lemma phi_lower_le_upper : -(Real.pi / 2) + 0.1 ≤ Real.pi / 2 - 0.1 := by
  nlinarith [Real.pi_gt_three]

lemma applyMouseOrbit_phi_mem (o : ℚ × ℚ) (theta phi : ℝ) :
    -(Real.pi / 2) + 0.1 ≤ (applyMouseOrbit o theta phi).2 ∧
      (applyMouseOrbit o theta phi).2 ≤ Real.pi / 2 - 0.1 :=
  ⟨le_max_left _ _, max_le phi_lower_le_upper (min_le_left _ _)⟩

lemma applyGamepadOrbit_phi_mem (g : Option Gamepad) (delta : ℚ)
    (theta phi : ℝ) (h1 : -(Real.pi / 2) + 0.1 ≤ phi)
    (h2 : phi ≤ Real.pi / 2 - 0.1) :
    -(Real.pi / 2) + 0.1 ≤ (applyGamepadOrbit g delta theta phi).2 ∧
      (applyGamepadOrbit g delta theta phi).2 ≤ Real.pi / 2 - 0.1 := by
  cases g with
  | none => exact ⟨h1, h2⟩
  | some gp =>
      by_cases hax : |gp.ax3| > DEADZONE
      · have h : (applyGamepadOrbit (some gp) delta theta phi).2 =
            max (-(Real.pi / 2) + 0.1)
              (min (Real.pi / 2 - 0.1)
                (phi + (gp.ax3 : ℝ) * 2 * (delta : ℝ))) := by
          simp [applyGamepadOrbit, hax]
        rw [h]
        exact ⟨le_max_left _ _, max_le phi_lower_le_upper (min_le_left _ _)⟩
      · have h : (applyGamepadOrbit (some gp) delta theta phi).2 = phi := by
          simp [applyGamepadOrbit, hax]
        rw [h]
        exact ⟨h1, h2⟩

lemma applyLockedOrbit_phi_mem (fi : FrameInput) (m : Mesh) (s : LockTarget) :
    -(Real.pi / 2) + 0.1 ≤ ((applyLockedOrbit fi m s).1).phi ∧
      ((applyLockedOrbit fi m s).1).phi ≤ Real.pi / 2 - 0.1 := by
  exact applyGamepadOrbit_phi_mem fi.gamepad fi.delta _ _
    (applyMouseOrbit_phi_mem _ _ _).1 (applyMouseOrbit_phi_mem _ _ _).2

lemma applyLockedOrbit_distance_min (fi : FrameInput) (m : Mesh)
    (s : LockTarget) :
    (3 / 2 : ℚ) * m.radius ≤ ((applyLockedOrbit fi m s).1).distance := by
  have h : ((applyLockedOrbit fi m s).1).distance =
      max (m.radius * (3 / 2)) (s.distance + fi.zoomVel * fi.delta * 50) := rfl
  rw [h, mul_comm]
  exact le_max_left _ _

lemma foldl_lockStep_pred (P : LockTarget → Prop) (m : Mesh)
    (hstep : ∀ fi s, P ((applyLockedOrbit fi m s).1)) :
    ∀ (l : List FrameInput) (s : LockTarget), P s →
      P (List.foldl (fun t i => (applyLockedOrbit i m t).1) s l) := by
  intro l
  induction l with
  | nil => intro s h; simpa using h
  | cons i tl ih => intro s _; exact ih _ (hstep i s)

/-- Claim C2: after each locked-mode update (zoom applied to the orbit
distance, then clamped) the distance is at least `1.5` times the target's
radius — for a single update from any prior state, and after any nonempty
sequence of per-frame inputs. -/
theorem c2_lock_distance_minimum :
    (∀ (fi : FrameInput) (m : Mesh) (s : LockTarget),
        (3 / 2 : ℚ) * m.radius ≤ ((applyLockedOrbit fi m s).1).distance) ∧
    (∀ (fi : FrameInput) (rest : List FrameInput) (m : Mesh) (s : LockTarget),
        (3 / 2 : ℚ) * m.radius ≤
          (List.foldl (fun t i => (applyLockedOrbit i m t).1) s
            (fi :: rest)).distance) := by
  constructor
  · exact applyLockedOrbit_distance_min
  · intro fi rest m s
    exact foldl_lockStep_pred
      (fun t => (3 / 2 : ℚ) * m.radius ≤ t.distance) m
      (fun i t => applyLockedOrbit_distance_min i m t) rest _
      (applyLockedOrbit_distance_min fi m s)

/-- Claim C3: after every locked-mode update — whatever combination of
keyboard pitch flags, mouse orbit delta and gamepad right-stick input the
frame carries, over one or many frames — the vertical orbit angle φ lies
in the closed clamp range `[-π/2 + 0.1, π/2 - 0.1]`, and therefore never
leaves the open interval `(-π/2 + ε, π/2 - ε)` for `ε = 1/20`. -/
theorem c3_phi_stays_in_open_interval :
    (∀ (fi : FrameInput) (m : Mesh) (s : LockTarget),
        -(Real.pi / 2) + 0.1 ≤ ((applyLockedOrbit fi m s).1).phi ∧
        ((applyLockedOrbit fi m s).1).phi ≤ Real.pi / 2 - 0.1 ∧
        -(Real.pi / 2) + 1 / 20 < ((applyLockedOrbit fi m s).1).phi ∧
        ((applyLockedOrbit fi m s).1).phi < Real.pi / 2 - 1 / 20) ∧
    (∀ (fi : FrameInput) (rest : List FrameInput) (m : Mesh) (s : LockTarget),
        -(Real.pi / 2) + 1 / 20 <
          (List.foldl (fun t i => (applyLockedOrbit i m t).1) s
            (fi :: rest)).phi ∧
        (List.foldl (fun t i => (applyLockedOrbit i m t).1) s
            (fi :: rest)).phi < Real.pi / 2 - 1 / 20) := by
  have strengthen : ∀ phi : ℝ, -(Real.pi / 2) + 0.1 ≤ phi →
      phi ≤ Real.pi / 2 - 0.1 →
      -(Real.pi / 2) + 1 / 20 < phi ∧ phi < Real.pi / 2 - 1 / 20 := by
    intro phi h1 h2
    constructor <;> [nlinarith; nlinarith]
  constructor
  · intro fi m s
    obtain ⟨h1, h2⟩ := applyLockedOrbit_phi_mem fi m s
    exact ⟨h1, h2, strengthen _ h1 h2⟩
  · intro fi rest m s
    have hmem := foldl_lockStep_pred
      (fun t => -(Real.pi / 2) + 0.1 ≤ t.phi ∧ t.phi ≤ Real.pi / 2 - 0.1) m
      (fun i t => applyLockedOrbit_phi_mem i m t) rest _
      (applyLockedOrbit_phi_mem fi m s)
    exact strengthen _ hmem.1 hmem.2

/-!
Auto-unlock (claim C4).
-/

/-- No translational gamepad intent: the left stick is inside the deadzone
on both axes and buttons 0/1 are not pressed (or no gamepad is present). -/
def noTranslationIntent (g : Option Gamepad) : Prop :=
  match g with
  | none => True
  | some gp =>
      ¬(gp.ax1 < -DEADZONE) ∧ ¬(gp.ax1 > DEADZONE) ∧
      ¬(gp.ax0 < -DEADZONE) ∧ ¬(gp.ax0 > DEADZONE) ∧
      buttonPressed gp 0 = false ∧ buttonPressed gp 1 = false

lemma computeIsMoving_no_translation (input : InputState) (g : Option Gamepad)
    (hf : input.forward = false) (hb : input.back = false)
    (hl : input.left = false) (hr : input.right = false)
    (hu : input.up = false) (hd : input.down = false)
    (hg : noTranslationIntent g) :
    computeIsMoving input g = false := by
  cases g with
  | none => simp [computeIsMoving, hf, hb, hl, hr, hu, hd]
  | some gp =>
      obtain ⟨n1, n2, n3, n4, n5, n6⟩ := hg
      simp [computeIsMoving, hf, hb, hl, hr, hu, hd, n1, n2, n3, n4, n5, n6]

/-- Claim C4: while locked, any translational intent — keyboard
forward/back/left/right/up/down, gamepad left stick beyond the deadzone,
or gamepad buttons 0/1 (exactly the flags merged into `isMoving`) — makes
the lock state null after the frame; with no translational intent the lock
survives the frame (rotation-only intent never unlocks, since
`isMoving` reads none of the pitch/yaw/roll flags). -/
theorem c4_auto_unlock :
    (∀ (fi : FrameInput) (s : LockTarget),
        computeIsMoving fi.input fi.gamepad = true →
        frameLockUpdate fi (some s) = none) ∧
    (∀ (fi : FrameInput) (s : LockTarget),
        fi.input.forward = false → fi.input.back = false →
        fi.input.left = false → fi.input.right = false →
        fi.input.up = false → fi.input.down = false →
        noTranslationIntent fi.gamepad →
        (frameLockUpdate fi (some s)).isSome = true) := by
  constructor
  · intro fi s h
    cases hm : s.mesh <;> simp [frameLockUpdate, h, hm]
  · intro fi s hf hb hl hr hu hd hg
    have h : computeIsMoving fi.input fi.gamepad = false :=
      computeIsMoving_no_translation fi.input fi.gamepad hf hb hl hr hu hd hg
    cases hm : s.mesh <;> simp [frameLockUpdate, h, hm]

/-- A frame with only the forward key held, no gamepad. -/
def fiForwardOnly : FrameInput :=
  ⟨1 / 60, 0, 0, 0, { createInputState with forward := true }, none⟩

/-- A frame with rotation-only intent (pitch up, roll left, yaw right). -/
def fiPitchOnly : FrameInput :=
  ⟨1 / 60, 0, 0, 0,
   { createInputState with pitchUp := true, rollLeft := true, yawRight := true },
   none⟩

/-- A concrete valid lock state (target radius 2, distance 6). -/
noncomputable def lockSample : LockTarget := ⟨some ⟨2⟩, 6, false, 0, 0.3⟩

/-- Witness for claim C4 at concrete inputs: a forward-only frame clears
the lock, a rotation-only frame keeps it. -/
theorem c4_auto_unlock_witness :
    frameLockUpdate fiForwardOnly (some lockSample) = none ∧
    (frameLockUpdate fiPitchOnly (some lockSample)).isSome = true := by
  constructor
  · exact c4_auto_unlock.1 fiForwardOnly lockSample (by decide)
  · exact c4_auto_unlock.2 fiPitchOnly lockSample rfl rfl rfl rfl rfl rfl trivial

/-!
Radar clamping (claim C5).
-/

lemma sqrt_pair_scaled (x y c : ℝ) (hc : 0 ≤ c) :
    Real.sqrt ((x * c) * (x * c) + (y * c) * (y * c)) =
      c * Real.sqrt (x * x + y * y) := by
  have h : (x * c) * (x * c) + (y * c) * (y * c) =
      (c * c) * (x * x + y * y) := by ring
  rw [h, Real.sqrt_mul (mul_self_nonneg c), Real.sqrt_mul_self hc]

lemma radar_edge_pos : (0 : ℝ) < Cosmos.RADAR_RADIUS - 10 := by
  norm_num [Cosmos.RADAR_RADIUS]

/-- Claim C5: the radar projection expresses the camera-relative vector in
camera-local space via the inverse (conjugate) camera quaternion and scales
the local `(x, z)` pair by `RADIUS / RANGE`; the resulting point's distance
from the radar centre never exceeds `RADIUS - 10`, the clamped flag is true
exactly when the unclamped scaled distance exceeded that bound, and a
clamped point sits exactly at `RADIUS - 10` with its direction preserved
(a positive multiple of the unclamped point). -/
theorem c5_radar_projection_clamp :
    ∀ (camPos : Vec3) (camQuat : Quat) (entityPos : Vec3),
      radarScaled camPos camQuat entityPos =
        (((entityPos.sub camPos).applyQuaternion camQuat.conjugate).x /
            Cosmos.RADAR_RANGE * Cosmos.RADAR_RADIUS,
         ((entityPos.sub camPos).applyQuaternion camQuat.conjugate).z /
            Cosmos.RADAR_RANGE * Cosmos.RADAR_RADIUS) ∧
      Real.sqrt ((radarProject camPos camQuat entityPos).x *
            (radarProject camPos camQuat entityPos).x +
          (radarProject camPos camQuat entityPos).y *
            (radarProject camPos camQuat entityPos).y) ≤
        Cosmos.RADAR_RADIUS - 10 ∧
      ((radarProject camPos camQuat entityPos).clamped = true ↔
        Cosmos.RADAR_RADIUS - 10 <
          Real.sqrt ((radarScaled camPos camQuat entityPos).1 *
              (radarScaled camPos camQuat entityPos).1 +
            (radarScaled camPos camQuat entityPos).2 *
              (radarScaled camPos camQuat entityPos).2)) ∧
      ((radarProject camPos camQuat entityPos).clamped = true →
        Real.sqrt ((radarProject camPos camQuat entityPos).x *
              (radarProject camPos camQuat entityPos).x +
            (radarProject camPos camQuat entityPos).y *
              (radarProject camPos camQuat entityPos).y) =
          Cosmos.RADAR_RADIUS - 10 ∧
        ∃ c : ℝ, 0 < c ∧
          (radarProject camPos camQuat entityPos).x =
            c * (radarScaled camPos camQuat entityPos).1 ∧
          (radarProject camPos camQuat entityPos).y =
            c * (radarScaled camPos camQuat entityPos).2) := by
  intro cp q ep
  refine ⟨rfl, ?_⟩
  by_cases hgt :
      Real.sqrt ((radarScaled cp q ep).1 * (radarScaled cp q ep).1 +
        (radarScaled cp q ep).2 * (radarScaled cp q ep).2) >
      Cosmos.RADAR_RADIUS - 10
  · have hdpos : (0 : ℝ) <
        Real.sqrt ((radarScaled cp q ep).1 * (radarScaled cp q ep).1 +
          (radarScaled cp q ep).2 * (radarScaled cp q ep).2) :=
      lt_trans radar_edge_pos hgt
    have hcpos : (0 : ℝ) < (Cosmos.RADAR_RADIUS - 10) /
        Real.sqrt ((radarScaled cp q ep).1 * (radarScaled cp q ep).1 +
          (radarScaled cp q ep).2 * (radarScaled cp q ep).2) :=
      div_pos radar_edge_pos hdpos
    have hrp : radarProject cp q ep =
        ⟨(radarScaled cp q ep).1 * ((Cosmos.RADAR_RADIUS - 10) /
            Real.sqrt ((radarScaled cp q ep).1 * (radarScaled cp q ep).1 +
              (radarScaled cp q ep).2 * (radarScaled cp q ep).2)),
          (radarScaled cp q ep).2 * ((Cosmos.RADAR_RADIUS - 10) /
            Real.sqrt ((radarScaled cp q ep).1 * (radarScaled cp q ep).1 +
              (radarScaled cp q ep).2 * (radarScaled cp q ep).2)),
          true⟩ := by
      simp only [radarProject]
      rw [if_pos hgt]
    have hdist : Real.sqrt ((radarProject cp q ep).x *
          (radarProject cp q ep).x +
        (radarProject cp q ep).y * (radarProject cp q ep).y) =
        Cosmos.RADAR_RADIUS - 10 := by
      rw [hrp]
      show Real.sqrt (_ * _ + _ * _) = _
      rw [sqrt_pair_scaled _ _ _ (le_of_lt hcpos)]
      exact div_mul_cancel₀ _ (ne_of_gt hdpos)
    refine ⟨le_of_eq hdist, ?_, ?_⟩
    · rw [hrp]
      simpa using hgt
    · intro _
      refine ⟨hdist, ⟨(Cosmos.RADAR_RADIUS - 10) /
        Real.sqrt ((radarScaled cp q ep).1 * (radarScaled cp q ep).1 +
          (radarScaled cp q ep).2 * (radarScaled cp q ep).2),
        hcpos, ?_, ?_⟩⟩
      · rw [hrp]; exact mul_comm _ _
      · rw [hrp]; exact mul_comm _ _
  · have hrp : radarProject cp q ep =
        ⟨(radarScaled cp q ep).1, (radarScaled cp q ep).2, false⟩ := by
      simp only [radarProject]
      rw [if_neg hgt]
    refine ⟨?_, ?_, ?_⟩
    · rw [hrp]
      exact not_lt.mp hgt
    · rw [hrp]
      simpa using hgt
    · intro hcl
      rw [hrp] at hcl
      simp at hcl

/-!
Free-flight zoom integration (claim C6).
-/

/-- The camera at the origin with the identity orientation. -/
noncomputable def camZero : Camera := ⟨⟨0, 0, 0⟩, ⟨0, 0, 0, 1⟩⟩

lemma freeZoomStep_camZero_eval :
    (freeZoomStep camZero 10 (2 / 125)).2 = 9 ∧
    (freeZoomStep camZero 10 (2 / 125)).1.pos = ⟨0, 0, 8 / 5⟩ := by
  have hstep : freeZoomStep camZero 10 (2 / 125) =
      (camZero.translateZ (((10 : ℚ) : ℝ) * (((2 / 125) : ℚ) : ℝ) * 10),
        (10 : ℚ) * (9 / 10)) := by
    simp only [freeZoomStep]
    rw [if_pos (by norm_num)]
  constructor
  · rw [hstep]; norm_num
  · rw [hstep]
    show (camZero.translateZ _).pos = _
    simp [camZero, Camera.translateZ, Vec3.applyQuaternion,
      Vec3.multiplyScalar, Vec3.add]
    norm_num

/-- Counterexample to claim C6 as stated: with zoom-velocity 10 and
delta 0.016 from the identity pose, the camera ends at `(0, 0, 1.6)` —
displaced along local +Z — not at the point
`pos + localZ * (-(10 * 0.016 * 10))` that a displacement "along local −Z
by zoomVelocity·delta·zoomScale" would give (the damping conjunct,
velocity 9, does hold). -/
theorem c6_zoom_direction_counterexample :
    (freeZoomStep camZero 10 (2 / 125)).2 = 9 ∧
    (freeZoomStep camZero 10 (2 / 125)).1.pos = ⟨0, 0, 8 / 5⟩ ∧
    ¬((freeZoomStep camZero 10 (2 / 125)).1.pos =
        camZero.pos.add
          (((Vec3.mk 0 0 1).applyQuaternion camZero.quat).multiplyScalar
            (-(((10 : ℚ) : ℝ) * (((2 / 125) : ℚ) : ℝ) * 10)))) := by
  obtain ⟨hv, hpos⟩ := freeZoomStep_camZero_eval
  refine ⟨hv, hpos, ?_⟩
  intro hcontra
  rw [hpos] at hcontra
  have hz := congrArg Vec3.z hcontra
  simp [camZero, Vec3.applyQuaternion, Vec3.multiplyScalar, Vec3.add] at hz
  norm_num at hz

/-- Claim C6 as amended: in free mode, a frame with `|zoomVelocity| > 0.01`
translates the camera along its local +Z axis by
`zoomVelocity × delta × 10` (so positive zoom velocity moves the camera
backward) and multiplies the velocity by 0.9; otherwise the frame leaves
both unchanged.  In particular zoom-velocity 10 at delta 0.016 gives
velocity 9 and a displacement of 1.6 along local +Z. -/
theorem c6_zoom_step_amended :
    (∀ (cam : Camera) (zv delta : ℚ), |zv| > 1 / 100 →
        freeZoomStep cam zv delta =
          (Camera.mk
            (cam.pos.add
              (((Vec3.mk 0 0 1).applyQuaternion cam.quat).multiplyScalar
                ((zv : ℝ) * (delta : ℝ) * 10)))
            cam.quat, zv * (9 / 10))) ∧
    (∀ (cam : Camera) (zv delta : ℚ), ¬(|zv| > 1 / 100) →
        freeZoomStep cam zv delta = (cam, zv)) ∧
    (freeZoomStep camZero 10 (2 / 125)).2 = 9 ∧
    (freeZoomStep camZero 10 (2 / 125)).1.pos = ⟨0, 0, 8 / 5⟩ := by
  refine ⟨?_, ?_, freeZoomStep_camZero_eval.1, freeZoomStep_camZero_eval.2⟩
  · intro cam zv delta h
    simp only [freeZoomStep]
    rw [if_pos h]
    rfl
  · intro cam zv delta h
    simp only [freeZoomStep]
    rw [if_neg h]

/-- Witness for the amended claim C6: the active-zoom branch at
zoom-velocity 10, delta 0.016, and the idle branch at zoom-velocity 0. -/
theorem c6_zoom_step_amended_witness :
    freeZoomStep camZero 10 (2 / 125) =
      (Camera.mk
        (camZero.pos.add
          (((Vec3.mk 0 0 1).applyQuaternion camZero.quat).multiplyScalar
            (((10 : ℚ) : ℝ) * (((2 / 125) : ℚ) : ℝ) * 10)))
        camZero.quat, (10 : ℚ) * (9 / 10)) ∧
    freeZoomStep camZero 0 (2 / 125) = (camZero, 0) :=
  ⟨c6_zoom_step_amended.1 camZero 10 (2 / 125) (by norm_num),
   c6_zoom_step_amended.2.1 camZero 0 (2 / 125) (by norm_num)⟩

/-!
Mouse-delta draining (claim C7).
-/

lemma applyMouseOrbit_zero (theta phi : ℝ)
    (h1 : -(Real.pi / 2) + 0.1 ≤ phi) (h2 : phi ≤ Real.pi / 2 - 0.1) :
    applyMouseOrbit (0, 0) theta phi = (theta, phi) := by
  unfold applyMouseOrbit
  simp only [Rat.cast_zero, zero_mul, sub_zero, add_zero]
  rw [min_eq_right h2, max_eq_right h1]

/-- Claim C7: the camera update drains the mouse-delta accumulator to
`(0, 0)` whenever it consumes it, and a second consumption in the same
frame is a no-op: with a zero accumulator the mouse block leaves the
camera untouched and produces zero orbit deltas, and applying the
locked-mode mouse-orbit update with zero deltas to angles just produced by
it changes nothing. -/
theorem c7_mouse_delta_drained_idempotent :
    (∀ (cam : Camera) (locked : Bool) (md : ℚ × ℚ),
        (mouseLookStep cam locked md).2.2 = (0, 0)) ∧
    (∀ (cam : Camera) (locked : Bool),
        mouseLookStep cam locked (0, 0) = (cam, (0, 0), (0, 0))) ∧
    (∀ (o : ℚ × ℚ) (theta phi : ℝ),
        applyMouseOrbit (0, 0)
            (applyMouseOrbit o theta phi).1 (applyMouseOrbit o theta phi).2 =
          applyMouseOrbit o theta phi) := by
  refine ⟨?_, ?_, ?_⟩
  · intro cam locked md
    obtain ⟨a, b⟩ := md
    by_cases h : a ≠ 0 ∨ b ≠ 0
    · cases locked <;> simp [mouseLookStep, h]
    · have h2 := h
      push_neg at h2
      simp [mouseLookStep, h2.1, h2.2]
  · intro cam locked
    simp [mouseLookStep]
  · intro o theta phi
    exact applyMouseOrbit_zero _ _
      (applyMouseOrbit_phi_mem o theta phi).1
      (applyMouseOrbit_phi_mem o theta phi).2

/-!
Lock-on initialization (claim C8).
-/

/-- Claim C8: a lock-on command with a target of radius `r` creates a lock
state with orbit distance `r * LOCK_DISTANCE_MULTIPLIER` (the multiplier
being 3), `theta = π/4`, `phi = 0.3` and the top-view flag false; in
particular radius 2 yields initial orbit distance 6. -/
theorem c8_lock_on_target_init :
    (∀ (m : Mesh) (r : ℚ),
        (lockOnTarget m r).mesh = some m ∧
        (lockOnTarget m r).distance = r * Cosmos.LOCK_DISTANCE_MULTIPLIER ∧
        Cosmos.LOCK_DISTANCE_MULTIPLIER = 3 ∧
        (lockOnTarget m r).isTop = false ∧
        (lockOnTarget m r).theta = Real.pi / 4 ∧
        (lockOnTarget m r).phi = 0.3) ∧
    (∀ m : Mesh, (lockOnTarget m 2).distance = 6) := by
  constructor
  · intro m r
    exact ⟨rfl, rfl, rfl, rfl, rfl, rfl⟩
  · intro m
    show (2 : ℚ) * Cosmos.LOCK_DISTANCE_MULTIPLIER = 6
    norm_num [Cosmos.LOCK_DISTANCE_MULTIPLIER]

/-!
Stale lock target (claim C9).
-/

/-- A lock state whose mesh reference is invalid. -/
noncomputable def staleLock : LockTarget := ⟨none, 6, false, 0, 0.3⟩

/-- An idle frame: no keys held, no gamepad, no mouse orbit, no zoom. -/
def fiIdle : FrameInput := ⟨1 / 60, 0, 0, 0, createInputState, none⟩

/-- Counterexample to claim C9 as stated: with a non-null lock state whose
target reference is invalid and no translational intent, the frame leaves
the stale lock in place — the lock state is not null after the update, so
the controller does not fall back to Free mode. -/
theorem c9_stale_lock_counterexample :
    frameLockUpdate fiIdle (some staleLock) = some staleLock ∧
    frameLockUpdate fiIdle (some staleLock) ≠ none := by
  have h : frameLockUpdate fiIdle (some staleLock) = some staleLock := by
    simp [frameLockUpdate, fiIdle, staleLock, computeIsMoving,
      createInputState]
  refine ⟨h, ?_⟩
  rw [h]
  simp

/-- Claim C9 as amended: when the lock state is non-null but its target
reference is invalid, the locked-mode branch is skipped before any
dereference (no crash), and the frame is a silent no-op on the lock state
— the stale lock stays in place — unless translational intent triggers the
auto-unlock path, which is the only way it becomes null that frame. -/
theorem c9_stale_lock_amended :
    ∀ (fi : FrameInput) (s : LockTarget), s.mesh = none →
      frameLockUpdate fi (some s) =
        (if computeIsMoving fi.input fi.gamepad then none else some s) := by
  intro fi s h
  cases hm : computeIsMoving fi.input fi.gamepad <;>
    simp [frameLockUpdate, h, hm]

/-- Witness for the amended claim C9 at a concrete stale lock and an idle
frame. -/
theorem c9_stale_lock_amended_witness :
    frameLockUpdate fiIdle (some staleLock) =
      (if computeIsMoving fiIdle.input fiIdle.gamepad then none
       else some staleLock) :=
  c9_stale_lock_amended fiIdle staleLock rfl

/-!
Keyboard mapping (claim C10).
-/

/-- Claim C10: `updateInputKey` realizes exactly the fixed keyboard
contract — forward=W, back=S, left=A, right=D, up=R, down=F, rollLeft=Q,
rollRight=E, pitchUp=ArrowUp, pitchDown=ArrowDown, yawLeft=ArrowLeft,
yawRight=ArrowRight, boost=either Shift — setting only the mapped flag to
the pressed/released edge, and any other key code leaves the input record
unchanged. -/
theorem c10_keyboard_mapping :
    (∀ (s : InputState) (p : Bool),
        updateInputKey s "KeyW" p = { s with forward := p } ∧
        updateInputKey s "KeyS" p = { s with back := p } ∧
        updateInputKey s "KeyA" p = { s with left := p } ∧
        updateInputKey s "KeyD" p = { s with right := p } ∧
        updateInputKey s "KeyR" p = { s with up := p } ∧
        updateInputKey s "KeyF" p = { s with down := p } ∧
        updateInputKey s "KeyQ" p = { s with rollLeft := p } ∧
        updateInputKey s "KeyE" p = { s with rollRight := p } ∧
        updateInputKey s "ArrowUp" p = { s with pitchUp := p } ∧
        updateInputKey s "ArrowDown" p = { s with pitchDown := p } ∧
        updateInputKey s "ArrowLeft" p = { s with yawLeft := p } ∧
        updateInputKey s "ArrowRight" p = { s with yawRight := p } ∧
        updateInputKey s "ShiftLeft" p = { s with boost := p } ∧
        updateInputKey s "ShiftRight" p = { s with boost := p }) ∧
    (∀ (s : InputState) (code : String) (p : Bool),
        code ∉ ["KeyW", "KeyS", "KeyA", "KeyD", "ArrowUp", "ArrowDown",
          "ArrowLeft", "ArrowRight", "KeyR", "KeyF", "KeyQ", "KeyE",
          "ShiftLeft", "ShiftRight"] →
        updateInputKey s code p = s) := by
  constructor
  · intro s p
    refine ⟨?_, ?_, ?_, ?_, ?_, ?_, ?_, ?_, ?_, ?_, ?_, ?_, ?_, ?_⟩ <;>
      simp [updateInputKey]
  · intro s code p h
    simp only [List.mem_cons, List.not_mem_nil, or_false, not_or] at h
    obtain ⟨h1, h2, h3, h4, h5, h6, h7, h8, h9, h10, h11, h12, h13, h14⟩ := h
    simp [updateInputKey, h1, h2, h3, h4, h5, h6, h7, h8, h9, h10, h11,
      h12, h13, h14]

/-- Witness for claim C10: the unmapped key code KeyZ leaves the freshly
created input state unchanged. -/
theorem c10_keyboard_mapping_witness :
    updateInputKey createInputState "KeyZ" true = createInputState :=
  c10_keyboard_mapping.2 createInputState "KeyZ" true (by decide)

/-- A distant entity on the camera's local x axis, beyond the radar range. -/
noncomputable def entFar : Vec3 := ⟨3000, 0, 0⟩

lemma radarScaled_entFar :
    radarScaled camZero.pos camZero.quat entFar = (150, 0) := by
  simp [radarScaled, camZero, entFar, Vec3.sub, Vec3.applyQuaternion,
    Quat.conjugate, Cosmos.RADAR_RANGE, Cosmos.RADAR_RADIUS]
  norm_num

lemma radarProject_entFar_clamped :
    (radarProject camZero.pos camZero.quat entFar).clamped = true := by
  have hd : Real.sqrt ((150 : ℝ) * 150 + 0 * 0) = 150 := by
    have h : (150 : ℝ) * 150 + 0 * 0 = 150 ^ 2 := by norm_num
    rw [h, Real.sqrt_sq (by norm_num : (0 : ℝ) ≤ 150)]
  simp only [radarProject, radarScaled_entFar]
  rw [if_pos]
  rw [hd]
  norm_num [Cosmos.RADAR_RADIUS]

/-- Witness for claim C5 at a concrete clamped input: an entity 3000 units
along the camera's local x axis projects to the radar edge, pinned at
distance `RADIUS - 10` in the unclamped point's direction. -/
theorem c5_radar_projection_clamp_witness :
    Real.sqrt ((radarProject camZero.pos camZero.quat entFar).x *
          (radarProject camZero.pos camZero.quat entFar).x +
        (radarProject camZero.pos camZero.quat entFar).y *
          (radarProject camZero.pos camZero.quat entFar).y) =
      Cosmos.RADAR_RADIUS - 10 ∧
    ∃ c : ℝ, 0 < c ∧
      (radarProject camZero.pos camZero.quat entFar).x =
        c * (radarScaled camZero.pos camZero.quat entFar).1 ∧
      (radarProject camZero.pos camZero.quat entFar).y =
        c * (radarScaled camZero.pos camZero.quat entFar).2 :=
  (c5_radar_projection_clamp camZero.pos camZero.quat entFar).2.2.2
    radarProject_entFar_clamped
